import Mathlib

/-!
Verification development for the doodle-hoops speedrun recorder.

The embedding follows the dual-mode controller variant of the source
(the `Recorder` component using `RecorderState.WAITING_FOR_START` and the
45-point threshold) together with the local pixel classifier
(`analyzeGameFrameLocally`) and the shared type declarations.

Conventions of the embedding:
  - machine numbers are `Nat`/`Int`; the source's fractional comparisons
    (`y / height < 0.40`, `count > scanWidth * 0.4`, `rows > height * 0.02`)
    are rendered by exact cross-multiplied integer comparisons, which agree
    with the source's arithmetic on the sampled frame sizes;
  - the canvas pixel read (`ctx.getImageData`) is a function returning
    `Option` pixel data: `none` models the call throwing (sampler not
    ready), which the source catches;
  - the asynchronous controller is a step machine over explicit events:
    a timer firing (`tick`, carrying the visibility flag and the
    classification outcome of that tick), a recorded data chunk arriving,
    the buffer flush completing (`finalizeDone`, the resumption point of
    the un-awaited `handleGameOver` after `stopMediaRecorder`), and the
    user stop.
-/

namespace DoodleHoops

/-! ## Shared types (source: types.ts) -/

inductive RecorderState
  | IDLE
  | MONITORING
  | RECORDING
  | ANALYZING
  | WAITING_FOR_START
deriving DecidableEq

inductive DetectionMode
  | GEMINI
  | LOCAL
deriving DecidableEq

inductive AttemptStatus
  | saved
  | discarded
  | error
  | manualReview
deriving DecidableEq

/-- `AnalysisResult` of the source: `score` is `null` when unreadable. -/
structure AnalysisResult where
  isGameOver : Bool
  score : Option Int
  confidence : Rat
deriving DecidableEq

/-- `AttemptRecord` of the source; the media blob is a byte list. -/
structure AttemptRecord where
  id : String
  timestamp : Nat
  score : Option Int
  status : AttemptStatus
  videoBlob : Option (List Nat)
  thumbnail : Option String
deriving DecidableEq

/-! ## Local frame classifier (source: localDetectionService) -/

def scanWidth : Nat := 20

structure RGB where
  r : Nat
  g : Nat
  b : Nat

def TARGET_BLUE : RGB := ⟨66, 133, 244⟩

def TARGET_GREEN : RGB := ⟨52, 168, 83⟩

def COLOR_TOLERANCE : Int := 70

/-- Source: Euclidean distance `sqrt(Δr² + Δg² + Δb²) < COLOR_TOLERANCE`;
stated on the squares, which is equivalent for non-negative radicands. -/
def colorMatch (r g b : Nat) (target : RGB) : Bool :=
  ((r : Int) - target.r) ^ 2 + ((g : Int) - target.g) ^ 2 + ((b : Int) - target.b) ^ 2
    < COLOR_TOLERANCE ^ 2

def isWhiteish (r g b : Nat) : Bool :=
  decide (220 < r) && decide (220 < g) && decide (220 < b)

/-- The RGB triple of the strip pixel at row `y`, column `x`:
the source reads `frameData[(y * scanWidth + x) * 4]` and the next two
channels. -/
def stripPixel (frameData : Nat → Nat) (y x : Nat) : Nat × Nat × Nat :=
  ((frameData ((y * scanWidth + x) * 4)),
   (frameData ((y * scanWidth + x) * 4 + 1)),
   (frameData ((y * scanWidth + x) * 4 + 2)))

/-- The source's inner `for x` loop: counts of blue-matching,
green-matching and whiteish pixels of row `y` of the strip. -/
def scanRow (frameData : Nat → Nat) (y : Nat) : Nat × Nat × Nat :=
  (List.range scanWidth).foldl
    (fun acc x =>
      (acc.1 + (if colorMatch (stripPixel frameData y x).1 (stripPixel frameData y x).2.1
                    (stripPixel frameData y x).2.2 TARGET_BLUE then 1 else 0),
       acc.2.1 + (if colorMatch (stripPixel frameData y x).1 (stripPixel frameData y x).2.1
                    (stripPixel frameData y x).2.2 TARGET_GREEN then 1 else 0),
       acc.2.2 + (if isWhiteish (stripPixel frameData y x).1 (stripPixel frameData y x).2.1
                    (stripPixel frameData y x).2.2 then 1 else 0)))
    (0, 0, 0)

/-- The source's outer `for y` loop: tallies of blue rows (top 40 % of
frame height, strict `y / height < 0.40` as `5 * y < 2 * height`), green
rows (30–70 % band) and white rows (50–85 % band), each requiring its
per-row match count to exceed `scanWidth * 0.4 = 8`. -/
def countRows (frameData : Nat → Nat) (height : Nat) : Nat × Nat × Nat :=
  (List.range height).foldl
    (fun acc y =>
      (acc.1 + (if (decide (5 * y < 2 * height) && decide (8 < (scanRow frameData y).1)) then 1 else 0),
       acc.2.1 + (if (decide (3 * height < 10 * y) && decide (10 * y < 7 * height)
                      && decide (8 < (scanRow frameData y).2.1)) then 1 else 0),
       acc.2.2 + (if (decide (height < 2 * y) && decide (20 * y < 17 * height)
                      && decide (8 < (scanRow frameData y).2.2)) then 1 else 0)))
    (0, 0, 0)

/-- `analyzeGameFrameLocally` of the source.  `getImageData startX w h`
is the canvas read; `none` models the read throwing (caught by the
source's `try`/`catch`, which returns the negative result).  The strip
starts at `max 0 (centerX - scanWidth / 2)`, which is `Nat` subtraction
here.  `hasRibbon`/`hasButton`/`hasUrlBox` render
`rows > height * 0.02` as `height < 50 * rows`. -/
def analyzeGameFrameLocally
    (getImageData : Nat → Nat → Nat → Option (Nat → Nat))
    (width height : Nat) : AnalysisResult :=
  match getImageData (width / 2 - scanWidth / 2) scanWidth height with
  | none => { isGameOver := false, score := none, confidence := 0 }
  | some frameData =>
      let counts := countRows frameData height
      let hasRibbon := decide (height < 50 * counts.1)
      let hasButton := decide (height < 50 * counts.2.1)
      let hasUrlBox := decide (height < 50 * counts.2.2)
      let isGameOver := hasRibbon && (hasButton || hasUrlBox)
      { isGameOver := isGameOver, score := none,
        confidence := if isGameOver then 1 else 0 }

/-! ### Declarative restatement of the classifier (the spec's wording),
to be proved equal to the loop form above. -/

/-- Number of pixels of strip row `y` satisfying `p`. -/
def rowMatchCount (frameData : Nat → Nat) (y : Nat) (p : Nat → Nat → Nat → Bool) : Nat :=
  (List.range scanWidth).countP fun x =>
    p (stripPixel frameData y x).1 (stripPixel frameData y x).2.1 (stripPixel frameData y x).2.2

/-- A blue row: in the top 40 % of frame height and more than 40 % of the
strip matches the reference blue. -/
def isBlueRow (frameData : Nat → Nat) (height y : Nat) : Bool :=
  decide (5 * y < 2 * height)
    && decide (8 < rowMatchCount frameData y (fun r g b => colorMatch r g b TARGET_BLUE))

/-- A green row: in the 30–70 % vertical band and more than 40 % of the
strip matches the reference green. -/
def isGreenRow (frameData : Nat → Nat) (height y : Nat) : Bool :=
  decide (3 * height < 10 * y) && decide (10 * y < 7 * height)
    && decide (8 < rowMatchCount frameData y (fun r g b => colorMatch r g b TARGET_GREEN))

/-- A white row: in the 50–85 % vertical band and more than 40 % of the
strip is near-white. -/
def isWhiteRow (frameData : Nat → Nat) (height y : Nat) : Bool :=
  decide (height < 2 * y) && decide (20 * y < 17 * height)
    && decide (8 < rowMatchCount frameData y (fun r g b => isWhiteish r g b))

def blueRowCount (frameData : Nat → Nat) (height : Nat) : Nat :=
  (List.range height).countP (isBlueRow frameData height)

def greenRowCount (frameData : Nat → Nat) (height : Nat) : Nat :=
  (List.range height).countP (isGreenRow frameData height)

def whiteRowCount (frameData : Nat → Nat) (height : Nat) : Nat :=
  (List.range height).countP (isWhiteRow frameData height)

/-- The spec's aggregate decision. -/
def isGameOverSpec (frameData : Nat → Nat) (height : Nat) : Bool :=
  decide (height < 50 * blueRowCount frameData height)
    && (decide (height < 50 * greenRowCount frameData height)
        || decide (height < 50 * whiteRowCount frameData height))

/-! ## Session controller (source: the dual-mode `Recorder` component) -/

def TARGET_SCORE : Int := 45

def BASE_INTERVAL_MS : Nat := 4000

def LOCAL_INTERVAL_MS : Nat := 1000

def ERROR_BACKOFF_MS : Nat := 10000

/-- Tick interval selected inside `runAnalysisLoop`:
`mode === 'LOCAL' ? LOCAL_INTERVAL_MS : BASE_INTERVAL_MS`. -/
def modeInterval : DetectionMode → Nat
  | .LOCAL => LOCAL_INTERVAL_MS
  | .GEMINI => BASE_INTERVAL_MS

/-- The first delay scheduled by `startCapture`.  The source reads
`mode === 'LOCAL' ? LOCAL_INTERVAL_MS : 1000` — the non-local arm is the
literal `1000`, not `BASE_INTERVAL_MS`. -/
def startCaptureDelay : DetectionMode → Nat
  | .LOCAL => LOCAL_INTERVAL_MS
  | .GEMINI => 1000

/-- Whether `pattern` occurs at the head of `text`. -/
def leadMatch : List Char → List Char → Bool
  | _, [] => true
  | [], _ :: _ => false
  | a :: as, b :: bs => (a = b) && leadMatch as bs

/-- Whether `pattern` occurs anywhere in `text` (`String.includes`). -/
def occursIn (text pattern : List Char) : Bool :=
  match text with
  | [] => leadMatch [] pattern
  | _ :: rest => leadMatch text pattern || occursIn rest pattern

/-- `err.message?.includes('429') || err.message?.includes('RESOURCE_EXHAUSTED')`. -/
def isQuotaError (msg : String) : Bool :=
  occursIn msg.toList "429".toList || occursIn msg.toList "RESOURCE_EXHAUSTED".toList

/-- The status computation of `handleGameOver`: `'discarded'` unless the
score is `null` (`'manual-review'`) or at least `TARGET_SCORE` (`'saved'`). -/
def attemptStatusOf (score : Option Int) : AttemptStatus :=
  match score with
  | none => .manualReview
  | some s => if TARGET_SCORE ≤ s then .saved else .discarded

/-- The `AttemptRecord` built by `handleGameOver`: the flushed buffer is
attached (`videoBlob`) exactly when the status is not `'discarded'`. -/
def handleGameOverRecord (id : String) (timestamp : Nat) (score : Option Int)
    (videoBlob : List Nat) (thumbnail : String) : AttemptRecord :=
  { id := id, timestamp := timestamp, score := score,
    status := attemptStatusOf score,
    videoBlob := if attemptStatusOf score ≠ .discarded then some videoBlob else none,
    thumbnail := some thumbnail }

/-- Controller configuration: the mutable refs of the component.
`pendingFinalize` holds the argument of an un-awaited `handleGameOver`
that is suspended at `await stopMediaRecorder()` (score and thumbnail);
`pendingTimer` the delay of the pending `setTimeout`, if any. -/
structure Ctrl where
  state : RecorderState
  streamActive : Bool
  recOpen : Bool
  chunks : List Nat
  isRateLimited : Bool
  pendingFinalize : Option (Option Int × String)
  pendingTimer : Option Nat
deriving DecidableEq

/-- Events driving the controller:
`tick` is the scheduled timer firing (`runAnalysisLoop`), carrying
`document.hidden`, the classification outcome of that tick and the
thumbnail string the canvas would yield; `dataChunk` a MediaRecorder data
event; `finalizeDone` the buffer flush completing (the `onstop` callback
resuming `handleGameOver`, with the environment's record id and
timestamp); `stop` the user stop / stream end (`stopSession`). -/
inductive Ev
  | tick (hidden : Bool) (outcome : Except String AnalysisResult) (thumb : String)
  | dataChunk (d : Nat)
  | finalizeDone (id : String) (timestamp : Nat)
  | stop

/-- Outcome of `startMediaRecorder`: no-op unless the stream is active
and no recorder is currently recording; otherwise the state becomes
`RECORDING` and a buffer is opened. -/
def startMediaRecorderStep (streamActive recOpen : Bool) (st : RecorderState) :
    RecorderState × Bool :=
  if !streamActive || recOpen then (st, false) else (.RECORDING, true)

/-- Result of the state dispatch of `performAnalysis`: the new state,
whether a buffer was opened, and whether `handleGameOver` was invoked
(which synchronously moves the state to `ANALYZING` and stops the
recorder). -/
structure DispatchOut where
  state : RecorderState
  opened : Bool
  finalize : Bool
deriving DecidableEq

/-- The dispatch of `performAnalysis` on a classification result, read
off the source's `if`/`else if` chain on `stateRef.current`.  The leading
guard returns immediately in `ANALYZING`; an unmatched state (`IDLE`)
falls through with no action. -/
def performAnalysisStep (st : RecorderState) (streamActive recOpen : Bool)
    (result : AnalysisResult) : DispatchOut :=
  if st = .ANALYZING then ⟨st, false, false⟩
  else if st = .MONITORING then
    if result.isGameOver then ⟨.WAITING_FOR_START, false, false⟩
    else ⟨(startMediaRecorderStep streamActive recOpen st).1,
          (startMediaRecorderStep streamActive recOpen st).2, false⟩
  else if st = .RECORDING then
    if result.isGameOver then ⟨.ANALYZING, false, true⟩
    else ⟨st, false, false⟩
  else if st = .WAITING_FOR_START then
    if result.isGameOver then ⟨st, false, false⟩
    else ⟨(startMediaRecorderStep streamActive recOpen st).1,
          (startMediaRecorderStep streamActive recOpen st).2, false⟩
  else ⟨st, false, false⟩

/-- One step of the controller, with the records emitted by the step and
whether a buffer was opened (`startMediaRecorder` started), closed
(`MediaRecorder.stop` called on an open recorder) and a frame sampled.

The `tick` case is `runAnalysisLoop`: return if the stream is gone
(consuming the fired timer); if the document is hidden, only reschedule
at twice the mode interval; if the state is `ANALYZING`,
`performAnalysis` returns at its guard, so the success path reschedules
at the normal interval; otherwise the outcome is dispatched — note that
when `handleGameOver` starts, the loop still schedules the next tick at
the normal interval, because `performAnalysis` does not await it. -/
def step (mode : DetectionMode) (c : Ctrl) : Ev → Ctrl × List AttemptRecord × Bool × Bool × Bool
  | .tick hidden outcome thumb =>
    if !c.streamActive then ({ c with pendingTimer := none }, [], false, false, false)
    else if hidden then
      ({ c with pendingTimer := some (2 * modeInterval mode) }, [], false, false, false)
    else if c.state = .ANALYZING then
      ({ c with isRateLimited := false, pendingTimer := some (modeInterval mode) },
        [], false, false, false)
    else
      match outcome with
      | .error e =>
        if isQuotaError e ∧ mode = .GEMINI then
          ({ c with isRateLimited := true, pendingTimer := some ERROR_BACKOFF_MS },
            [], false, false, true)
        else
          ({ c with pendingTimer := some (modeInterval mode) }, [], false, false, true)
      | .ok result =>
        ({ (c : Ctrl) with
            state := (performAnalysisStep c.state c.streamActive c.recOpen result).state,
            recOpen := if (performAnalysisStep c.state c.streamActive c.recOpen result).opened
              then true
              else if (performAnalysisStep c.state c.streamActive c.recOpen result).finalize
                then false else c.recOpen,
            chunks := if (performAnalysisStep c.state c.streamActive c.recOpen result).opened
              then [] else c.chunks,
            pendingFinalize :=
              if (performAnalysisStep c.state c.streamActive c.recOpen result).finalize
                then some (result.score, thumb) else c.pendingFinalize,
            isRateLimited := false,
            pendingTimer := some (modeInterval mode) },
          [],
          (performAnalysisStep c.state c.streamActive c.recOpen result).opened,
          (performAnalysisStep c.state c.streamActive c.recOpen result).finalize && c.recOpen,
          true)
  | .dataChunk d =>
    if c.recOpen then ({ c with chunks := c.chunks ++ [d] }, [], false, false, false)
    else (c, [], false, false, false)
  | .finalizeDone id timestamp =>
    match c.pendingFinalize with
    | none => (c, [], false, false, false)
    | some (score, thumb) =>
      ({ c with state := .WAITING_FOR_START, chunks := [], pendingFinalize := none },
        [handleGameOverRecord id timestamp score c.chunks thumb], false, false, false)
  | .stop =>
    ({ c with
        state := .IDLE,
        streamActive := false,
        recOpen := false,
        isRateLimited := false,
        pendingTimer := none },
      [], false, c.recOpen, false)

/-- Configuration after a step. -/
def stepCfg (mode : DetectionMode) (c : Ctrl) (e : Ev) : Ctrl := (step mode c e).1

/-- Records emitted by a step. -/
def stepEmitted (mode : DetectionMode) (c : Ctrl) (e : Ev) : List AttemptRecord :=
  (step mode c e).2.1

/-- Whether a step opened a buffer. -/
def stepOpened (mode : DetectionMode) (c : Ctrl) (e : Ev) : Bool := (step mode c e).2.2.1

/-- Whether a step closed a buffer. -/
def stepClosed (mode : DetectionMode) (c : Ctrl) (e : Ev) : Bool := (step mode c e).2.2.2.1

/-- Whether a step sampled a frame (and hence invoked a classifier). -/
def stepSampled (mode : DetectionMode) (c : Ctrl) (e : Ev) : Bool := (step mode c e).2.2.2.2

/-- Run a list of events, collecting all emitted records in order. -/
def run (mode : DetectionMode) (c : Ctrl) : List Ev → Ctrl × List AttemptRecord
  | [] => (c, [])
  | e :: es =>
    ((run mode (stepCfg mode c e) es).1,
      stepEmitted mode c e ++ (run mode (stepCfg mode c e) es).2)

/-- A list of tick events (visibility flag, outcome, thumbnail). -/
def tickEvents (l : List (Bool × Except String AnalysisResult × String)) : List Ev :=
  l.map fun t => Ev.tick t.1 t.2.1 t.2.2

/-- A list of tick events all fired with the document hidden. -/
def hiddenTicks (l : List (Except String AnalysisResult × String)) : List Ev :=
  l.map fun t => Ev.tick true t.1 t.2

/-! ## Loop/count correspondence for the classifier -/

/-- A fold incrementing three counters by three boolean tests equals the
three `countP`s. -/
theorem foldl_count3 {α : Type} (p q r : α → Bool) (l : List α) (a b c : Nat) :
    l.foldl
      (fun acc x =>
        (acc.1 + (if p x then 1 else 0),
         acc.2.1 + (if q x then 1 else 0),
         acc.2.2 + (if r x then 1 else 0)))
      (a, b, c)
      = (a + l.countP p, b + l.countP q, c + l.countP r) := by
  induction l generalizing a b c with
  | nil => simp
  | cons x xs ih =>
      simp only [List.foldl_cons, List.countP_cons, ih]
      refine Prod.ext ?_ (Prod.ext ?_ ?_) <;> simp <;> omega

theorem scanRow_eq (frameData : Nat → Nat) (y : Nat) :
    scanRow frameData y
      = (rowMatchCount frameData y (fun r g b => colorMatch r g b TARGET_BLUE),
         rowMatchCount frameData y (fun r g b => colorMatch r g b TARGET_GREEN),
         rowMatchCount frameData y (fun r g b => isWhiteish r g b)) := by
  have h := foldl_count3
    (fun x => colorMatch (stripPixel frameData y x).1 (stripPixel frameData y x).2.1
        (stripPixel frameData y x).2.2 TARGET_BLUE)
    (fun x => colorMatch (stripPixel frameData y x).1 (stripPixel frameData y x).2.1
        (stripPixel frameData y x).2.2 TARGET_GREEN)
    (fun x => isWhiteish (stripPixel frameData y x).1 (stripPixel frameData y x).2.1
        (stripPixel frameData y x).2.2)
    (List.range scanWidth) 0 0 0
  simpa [rowMatchCount] using h

theorem countRows_eq (frameData : Nat → Nat) (height : Nat) :
    countRows frameData height
      = (blueRowCount frameData height, greenRowCount frameData height,
         whiteRowCount frameData height) := by
  have h := foldl_count3
    (fun y => decide (5 * y < 2 * height) && decide (8 < (scanRow frameData y).1))
    (fun y => decide (3 * height < 10 * y) && decide (10 * y < 7 * height)
        && decide (8 < (scanRow frameData y).2.1))
    (fun y => decide (height < 2 * y) && decide (20 * y < 17 * height)
        && decide (8 < (scanRow frameData y).2.2))
    (List.range height) 0 0 0
  have hb : (fun y => decide (5 * y < 2 * height) && decide (8 < (scanRow frameData y).1))
      = isBlueRow frameData height := by
    funext y; rw [isBlueRow, scanRow_eq]
  have hg : (fun y => decide (3 * height < 10 * y) && decide (10 * y < 7 * height)
        && decide (8 < (scanRow frameData y).2.1))
      = isGreenRow frameData height := by
    funext y; rw [isGreenRow, scanRow_eq]
  have hw : (fun y => decide (height < 2 * y) && decide (20 * y < 17 * height)
        && decide (8 < (scanRow frameData y).2.2))
      = isWhiteRow frameData height := by
    funext y; rw [isWhiteRow, scanRow_eq]
  rw [hb, hg, hw] at h
  simpa [countRows, blueRowCount, greenRowCount, whiteRowCount] using h

/-! ## Helper lemmas on the controller machine -/

/-- A tick fired while the state is `ANALYZING` (a finalize in flight)
emits nothing, opens and closes nothing, and leaves the state, the
pending finalize, the chunks, the recorder and the stream untouched:
`performAnalysis` returns at its leading guard. -/
theorem step_tick_analyzing (mode : DetectionMode) (c : Ctrl)
    (hst : c.state = .ANALYZING) (hidden : Bool)
    (outcome : Except String AnalysisResult) (thumb : String) :
    stepEmitted mode c (.tick hidden outcome thumb) = []
    ∧ (stepCfg mode c (.tick hidden outcome thumb)).state = .ANALYZING
    ∧ (stepCfg mode c (.tick hidden outcome thumb)).pendingFinalize = c.pendingFinalize
    ∧ (stepCfg mode c (.tick hidden outcome thumb)).chunks = c.chunks
    ∧ (stepCfg mode c (.tick hidden outcome thumb)).recOpen = c.recOpen
    ∧ (stepCfg mode c (.tick hidden outcome thumb)).streamActive = c.streamActive
    ∧ stepOpened mode c (.tick hidden outcome thumb) = false
    ∧ stepClosed mode c (.tick hidden outcome thumb) = false := by
  obtain ⟨st, sa, ro, chs, rl, pf, pt⟩ := c
  simp only at hst
  subst hst
  cases sa <;> cases hidden <;>
    simp [step, stepCfg, stepEmitted, stepOpened, stepClosed]

/-- Any sequence of ticks fired while a finalize is in flight emits
nothing and preserves the analyzing configuration. -/
theorem run_ticks_analyzing (mode : DetectionMode)
    (ticks : List (Bool × Except String AnalysisResult × String)) (c : Ctrl)
    (hst : c.state = .ANALYZING) :
    (run mode c (tickEvents ticks)).2 = []
    ∧ (run mode c (tickEvents ticks)).1.state = .ANALYZING
    ∧ (run mode c (tickEvents ticks)).1.pendingFinalize = c.pendingFinalize
    ∧ (run mode c (tickEvents ticks)).1.chunks = c.chunks
    ∧ (run mode c (tickEvents ticks)).1.recOpen = c.recOpen
    ∧ (run mode c (tickEvents ticks)).1.streamActive = c.streamActive := by
  induction ticks generalizing c with
  | nil => simp [run, tickEvents, hst]
  | cons t ts ih =>
      obtain ⟨h1, h2, h3, h4, h5, h6, _, _⟩ :=
        step_tick_analyzing mode c hst t.1 t.2.1 t.2.2
      obtain ⟨g1, g2, g3, g4, g5, g6⟩ := ih (stepCfg mode c (.tick t.1 t.2.1 t.2.2)) h2
      refine ⟨?_, ?_, ?_, ?_, ?_, ?_⟩ <;>
        simp [tickEvents, run, h1, h2, h3, h4, h5, h6, g1, g2, g3, g4, g5, g6] at *
      all_goals simp_all

/-- A tick fired with the document hidden only consumes the timer and
reschedules at twice the mode interval. -/
theorem step_tick_hidden (mode : DetectionMode) (c : Ctrl)
    (hsa : c.streamActive = true) (o : Except String AnalysisResult) (th : String) :
    step mode c (.tick true o th)
      = ({ c with pendingTimer := some (2 * modeInterval mode) }, [], false, false, false) := by
  obtain ⟨st, sa, ro, chs, rl, pf, pt⟩ := c
  simp only at hsa
  subst hsa
  simp [step]

/-- Any burst of hidden ticks emits nothing and leaves everything but the
pending timer untouched. -/
theorem run_hidden_ticks (mode : DetectionMode)
    (l : List (Except String AnalysisResult × String)) (c : Ctrl)
    (hsa : c.streamActive = true) :
    (run mode c (hiddenTicks l)).2 = []
    ∧ (run mode c (hiddenTicks l)).1.state = c.state
    ∧ (run mode c (hiddenTicks l)).1.recOpen = c.recOpen
    ∧ (run mode c (hiddenTicks l)).1.chunks = c.chunks
    ∧ (run mode c (hiddenTicks l)).1.pendingFinalize = c.pendingFinalize
    ∧ (run mode c (hiddenTicks l)).1.streamActive = true := by
  induction l generalizing c with
  | nil => simp [run, hiddenTicks, hsa]
  | cons t ts ih =>
      have hstep := step_tick_hidden mode c hsa t.1 t.2
      have hcfg : stepCfg mode c (.tick true t.1 t.2)
          = { c with pendingTimer := some (2 * modeInterval mode) } := by
        simp [stepCfg, hstep]
      have hem : stepEmitted mode c (.tick true t.1 t.2) = [] := by
        simp [stepEmitted, hstep]
      obtain ⟨g1, g2, g3, g4, g5, g6⟩ :=
        ih ({ c with pendingTimer := some (2 * modeInterval mode) }) (by simp [hsa])
      simp [hiddenTicks, run, hcfg, hem] at *
      simp_all

/-- `run` over an appended event list splits. -/
theorem run_append (mode : DetectionMode) (c : Ctrl) (es fs : List Ev) :
    run mode c (es ++ fs)
      = ((run mode (run mode c es).1 fs).1,
         (run mode c es).2 ++ (run mode (run mode c es).1 fs).2) := by
  induction es generalizing c with
  | nil => simp [run]
  | cons e es ih => simp [run, ih]

/-! ## Claims -/

/-- C1: at the `Recording → Analyzing → WaitingForStart` transition the
emitted `AttemptRecord`'s status is determined solely by the tick's
reported score — unknown score ⇒ `ManualReview` with the flushed buffer
attached; known score ≥ 45 ⇒ `Saved` with the buffer; known score < 45 ⇒
`Discarded` with no buffer; in particular 44 ⇒ `Discarded`/no buffer and
45 ⇒ `Saved`/buffer. -/
theorem C1_retention_rule (mode : DetectionMode) (sa ro rl : Bool)
    (chunks : List Nat) (pt : Option Nat) (score : Option Int)
    (thumb rid : String) (ts : Nat) :
    stepEmitted mode ⟨.ANALYZING, sa, ro, chunks, rl, some (score, thumb), pt⟩
        (.finalizeDone rid ts)
      = [handleGameOverRecord rid ts score chunks thumb]
    ∧ (stepCfg mode ⟨.ANALYZING, sa, ro, chunks, rl, some (score, thumb), pt⟩
        (.finalizeDone rid ts)).state = .WAITING_FOR_START
    ∧ (handleGameOverRecord rid ts none chunks thumb).status = .manualReview
    ∧ (handleGameOverRecord rid ts none chunks thumb).videoBlob = some chunks
    ∧ (∀ s : Int, 45 ≤ s →
        (handleGameOverRecord rid ts (some s) chunks thumb).status = .saved
        ∧ (handleGameOverRecord rid ts (some s) chunks thumb).videoBlob = some chunks)
    ∧ (∀ s : Int, s < 45 →
        (handleGameOverRecord rid ts (some s) chunks thumb).status = .discarded
        ∧ (handleGameOverRecord rid ts (some s) chunks thumb).videoBlob = none)
    ∧ (handleGameOverRecord rid ts (some 44) chunks thumb).status = .discarded
    ∧ (handleGameOverRecord rid ts (some 44) chunks thumb).videoBlob = none
    ∧ (handleGameOverRecord rid ts (some 45) chunks thumb).status = .saved
    ∧ (handleGameOverRecord rid ts (some 45) chunks thumb).videoBlob = some chunks := by
  refine ⟨?_, ?_, ?_, ?_, ?_, ?_, ?_, ?_, ?_, ?_⟩
  · simp [stepEmitted, step]
  · simp [stepCfg, step]
  · simp [handleGameOverRecord, attemptStatusOf]
  · simp [handleGameOverRecord, attemptStatusOf]
  · intro s hs
    constructor <;> simp [handleGameOverRecord, attemptStatusOf, TARGET_SCORE, hs]
  · intro s hs
    have hs' : ¬(TARGET_SCORE ≤ s) := by simp [TARGET_SCORE]; omega
    constructor <;> simp [handleGameOverRecord, attemptStatusOf, hs']
  · simp [handleGameOverRecord, attemptStatusOf, TARGET_SCORE]
  · simp [handleGameOverRecord, attemptStatusOf, TARGET_SCORE]
  · simp [handleGameOverRecord, attemptStatusOf, TARGET_SCORE]
  · simp [handleGameOverRecord, attemptStatusOf, TARGET_SCORE]

/-- Witness for C1 at concrete inputs: known scores 46 and 43. -/
theorem C1_retention_rule_witness :
    ((45 : Int) ≤ 46 ∧ (43 : Int) < 45)
    ∧ (handleGameOverRecord "r" 0 (some 46) [3] "t").status = .saved
    ∧ (handleGameOverRecord "r" 0 (some 43) [3] "t").videoBlob = none := by
  have h := C1_retention_rule .LOCAL true true false [3] none (some 46) "t" "r" 0
  exact ⟨⟨by decide, by decide⟩,
    (h.2.2.2.2.1 46 (by decide)).1,
    (h.2.2.2.2.2.1 43 (by decide)).2⟩

/-- C2: the per-tick state transitions.  `Monitoring` + not game over
opens the buffer and moves to `Recording`; `Monitoring` + game over moves
to `WaitingForStart` with no buffer action; `Recording` + not game over
is a no-op; `Recording` + game over goes to `WaitingForStart` via
`Analyzing`, closing exactly one buffer and emitting exactly one record;
`WaitingForStart` + not game over opens a new buffer and records;
`WaitingForStart` + game over is a no-op. -/
theorem C2_state_transitions (mode : DetectionMode) (chunks : List Nat)
    (rl : Bool) (pt : Option Nat) (sc : Option Int) (cf : Rat)
    (thumb rid : String) (ts : Nat) :
    ((stepCfg mode ⟨.MONITORING, true, false, chunks, rl, none, pt⟩
        (.tick false (.ok ⟨false, sc, cf⟩) thumb)).state = .RECORDING
      ∧ (stepCfg mode ⟨.MONITORING, true, false, chunks, rl, none, pt⟩
        (.tick false (.ok ⟨false, sc, cf⟩) thumb)).recOpen = true
      ∧ stepOpened mode ⟨.MONITORING, true, false, chunks, rl, none, pt⟩
        (.tick false (.ok ⟨false, sc, cf⟩) thumb) = true
      ∧ stepEmitted mode ⟨.MONITORING, true, false, chunks, rl, none, pt⟩
        (.tick false (.ok ⟨false, sc, cf⟩) thumb) = [])
    ∧ ((stepCfg mode ⟨.MONITORING, true, false, chunks, rl, none, pt⟩
        (.tick false (.ok ⟨true, sc, cf⟩) thumb)).state = .WAITING_FOR_START
      ∧ stepOpened mode ⟨.MONITORING, true, false, chunks, rl, none, pt⟩
        (.tick false (.ok ⟨true, sc, cf⟩) thumb) = false
      ∧ stepClosed mode ⟨.MONITORING, true, false, chunks, rl, none, pt⟩
        (.tick false (.ok ⟨true, sc, cf⟩) thumb) = false
      ∧ stepEmitted mode ⟨.MONITORING, true, false, chunks, rl, none, pt⟩
        (.tick false (.ok ⟨true, sc, cf⟩) thumb) = [])
    ∧ ((stepCfg mode ⟨.RECORDING, true, true, chunks, rl, none, pt⟩
        (.tick false (.ok ⟨false, sc, cf⟩) thumb)).state = .RECORDING
      ∧ stepOpened mode ⟨.RECORDING, true, true, chunks, rl, none, pt⟩
        (.tick false (.ok ⟨false, sc, cf⟩) thumb) = false
      ∧ stepClosed mode ⟨.RECORDING, true, true, chunks, rl, none, pt⟩
        (.tick false (.ok ⟨false, sc, cf⟩) thumb) = false
      ∧ stepEmitted mode ⟨.RECORDING, true, true, chunks, rl, none, pt⟩
        (.tick false (.ok ⟨false, sc, cf⟩) thumb) = [])
    ∧ ((stepCfg mode ⟨.RECORDING, true, true, chunks, rl, none, pt⟩
        (.tick false (.ok ⟨true, sc, cf⟩) thumb)).state = .ANALYZING
      ∧ stepClosed mode ⟨.RECORDING, true, true, chunks, rl, none, pt⟩
        (.tick false (.ok ⟨true, sc, cf⟩) thumb) = true
      ∧ stepOpened mode ⟨.RECORDING, true, true, chunks, rl, none, pt⟩
        (.tick false (.ok ⟨true, sc, cf⟩) thumb) = false
      ∧ (run mode ⟨.RECORDING, true, true, chunks, rl, none, pt⟩
          [.tick false (.ok ⟨true, sc, cf⟩) thumb, .finalizeDone rid ts]).2
        = [handleGameOverRecord rid ts sc chunks thumb]
      ∧ (run mode ⟨.RECORDING, true, true, chunks, rl, none, pt⟩
          [.tick false (.ok ⟨true, sc, cf⟩) thumb, .finalizeDone rid ts]).1.state
        = .WAITING_FOR_START)
    ∧ ((stepCfg mode ⟨.WAITING_FOR_START, true, false, chunks, rl, none, pt⟩
        (.tick false (.ok ⟨false, sc, cf⟩) thumb)).state = .RECORDING
      ∧ stepOpened mode ⟨.WAITING_FOR_START, true, false, chunks, rl, none, pt⟩
        (.tick false (.ok ⟨false, sc, cf⟩) thumb) = true
      ∧ stepEmitted mode ⟨.WAITING_FOR_START, true, false, chunks, rl, none, pt⟩
        (.tick false (.ok ⟨false, sc, cf⟩) thumb) = [])
    ∧ ((stepCfg mode ⟨.WAITING_FOR_START, true, false, chunks, rl, none, pt⟩
        (.tick false (.ok ⟨true, sc, cf⟩) thumb)).state = .WAITING_FOR_START
      ∧ stepOpened mode ⟨.WAITING_FOR_START, true, false, chunks, rl, none, pt⟩
        (.tick false (.ok ⟨true, sc, cf⟩) thumb) = false
      ∧ stepClosed mode ⟨.WAITING_FOR_START, true, false, chunks, rl, none, pt⟩
        (.tick false (.ok ⟨true, sc, cf⟩) thumb) = false
      ∧ stepEmitted mode ⟨.WAITING_FOR_START, true, false, chunks, rl, none, pt⟩
        (.tick false (.ok ⟨true, sc, cf⟩) thumb) = []) := by
  refine ⟨?_, ?_, ?_, ?_, ?_, ?_⟩ <;>
    simp [stepCfg, stepEmitted, stepOpened, stepClosed, step, run,
      performAnalysisStep, startMediaRecorderStep]

/-- C3 as stated is false: after the game-over tick in `Recording`, the
next tick is already scheduled (at the normal interval) while the buffer
flush is still pending and no record has been emitted — `handleGameOver`
is not awaited by `performAnalysis`, so `runAnalysisLoop` reschedules as
soon as the dispatch returns. -/
theorem C3_counterexample :
    (stepCfg .LOCAL ⟨.RECORDING, true, true, [7], false, none, none⟩
        (.tick false (.ok ⟨true, none, 1⟩) "t")).pendingTimer = some 1000
    ∧ (stepCfg .LOCAL ⟨.RECORDING, true, true, [7], false, none, none⟩
        (.tick false (.ok ⟨true, none, 1⟩) "t")).pendingFinalize = some (none, "t")
    ∧ stepEmitted .LOCAL ⟨.RECORDING, true, true, [7], false, none, none⟩
        (.tick false (.ok ⟨true, none, 1⟩) "t") = [] := by
  refine ⟨?_, ?_, ?_⟩ <;> rfl

/-- C3 amended: the game-over tick synchronously enters `Analyzing` and
stops the recorder, but the next tick is scheduled at the normal mode
interval before the flush completes; a double finalize is prevented by
the `Analyzing` guard instead — any tick fired while the flush is pending
applies no transition, touches no buffer and emits nothing, and the flush
completion emits exactly one record and lands in `WaitingForStart`. -/
theorem C3_analyzing_guard (mode : DetectionMode) (chunks : List Nat)
    (rl : Bool) (pt : Option Nat) (sc : Option Int) (cf : Rat)
    (thumb rid : String) (ts : Nat) :
    ((stepCfg mode ⟨.RECORDING, true, true, chunks, rl, none, pt⟩
        (.tick false (.ok ⟨true, sc, cf⟩) thumb)).pendingTimer = some (modeInterval mode)
      ∧ (stepCfg mode ⟨.RECORDING, true, true, chunks, rl, none, pt⟩
        (.tick false (.ok ⟨true, sc, cf⟩) thumb)).state = .ANALYZING
      ∧ (stepCfg mode ⟨.RECORDING, true, true, chunks, rl, none, pt⟩
        (.tick false (.ok ⟨true, sc, cf⟩) thumb)).pendingFinalize = some (sc, thumb)
      ∧ stepEmitted mode ⟨.RECORDING, true, true, chunks, rl, none, pt⟩
        (.tick false (.ok ⟨true, sc, cf⟩) thumb) = []
      ∧ stepClosed mode ⟨.RECORDING, true, true, chunks, rl, none, pt⟩
        (.tick false (.ok ⟨true, sc, cf⟩) thumb) = true)
    ∧ (∀ (sa ro : Bool) (chs : List Nat) (rl' : Bool) (pf : Option Int × String)
        (pt' : Option Nat) (hidden : Bool) (o : Except String AnalysisResult)
        (th : String),
        stepEmitted mode ⟨.ANALYZING, sa, ro, chs, rl', some pf, pt'⟩
            (.tick hidden o th) = []
        ∧ (stepCfg mode ⟨.ANALYZING, sa, ro, chs, rl', some pf, pt'⟩
            (.tick hidden o th)).state = .ANALYZING
        ∧ (stepCfg mode ⟨.ANALYZING, sa, ro, chs, rl', some pf, pt'⟩
            (.tick hidden o th)).pendingFinalize = some pf
        ∧ stepOpened mode ⟨.ANALYZING, sa, ro, chs, rl', some pf, pt'⟩
            (.tick hidden o th) = false
        ∧ stepClosed mode ⟨.ANALYZING, sa, ro, chs, rl', some pf, pt'⟩
            (.tick hidden o th) = false)
    ∧ (stepEmitted mode ⟨.ANALYZING, true, false, chunks, rl, some (sc, thumb), pt⟩
          (.finalizeDone rid ts)
        = [handleGameOverRecord rid ts sc chunks thumb]
      ∧ (stepCfg mode ⟨.ANALYZING, true, false, chunks, rl, some (sc, thumb), pt⟩
          (.finalizeDone rid ts)).state = .WAITING_FOR_START) := by
  refine ⟨?_, ?_, ?_⟩
  · simp [stepCfg, stepEmitted, stepClosed, step, performAnalysisStep]
  · intro sa ro chs rl' pf pt' hidden o th
    obtain ⟨h1, h2, h3, _, _, _, h7, h8⟩ :=
      step_tick_analyzing mode ⟨.ANALYZING, sa, ro, chs, rl', some pf, pt'⟩ rfl hidden o th
    exact ⟨h1, h2, h3, h7, h8⟩
  · simp [stepCfg, stepEmitted, step]

/-- C4: exactly one `AttemptRecord` per
`Recording → Analyzing → WaitingForStart` cycle, even with consecutive
game-over ticks: ticks fired while the state is `Analyzing` emit nothing
and stay in `Analyzing`; the full cycle (game-over tick, any ticks, flush
completion) emits exactly one record; and in `WaitingForStart` a
game-over tick is a no-op. -/
theorem C4_single_record_per_cycle (mode : DetectionMode)
    (ticks : List (Bool × Except String AnalysisResult × String))
    (chunks : List Nat) (rl : Bool) (pt : Option Nat) (sc : Option Int)
    (cf : Rat) (thumb rid : String) (ts : Nat) :
    ((run mode ⟨.ANALYZING, true, true, chunks, rl, some (sc, thumb), pt⟩
        (tickEvents ticks)).2 = []
      ∧ (run mode ⟨.ANALYZING, true, true, chunks, rl, some (sc, thumb), pt⟩
        (tickEvents ticks)).1.state = .ANALYZING)
    ∧ (run mode ⟨.RECORDING, true, true, chunks, rl, none, pt⟩
        (Ev.tick false (.ok ⟨true, sc, cf⟩) thumb
          :: (tickEvents ticks ++ [Ev.finalizeDone rid ts]))).2
      = [handleGameOverRecord rid ts sc chunks thumb]
    ∧ ((stepCfg mode ⟨.WAITING_FOR_START, true, false, chunks, rl, none, pt⟩
          (.tick false (.ok ⟨true, sc, cf⟩) thumb)).state = .WAITING_FOR_START
      ∧ stepEmitted mode ⟨.WAITING_FOR_START, true, false, chunks, rl, none, pt⟩
          (.tick false (.ok ⟨true, sc, cf⟩) thumb) = []
      ∧ stepOpened mode ⟨.WAITING_FOR_START, true, false, chunks, rl, none, pt⟩
          (.tick false (.ok ⟨true, sc, cf⟩) thumb) = false
      ∧ stepClosed mode ⟨.WAITING_FOR_START, true, false, chunks, rl, none, pt⟩
          (.tick false (.ok ⟨true, sc, cf⟩) thumb) = false) := by
  refine ⟨?_, ?_, ?_⟩
  · obtain ⟨g1, g2, _, _, _, _⟩ := run_ticks_analyzing mode ticks
      ⟨.ANALYZING, true, true, chunks, rl, some (sc, thumb), pt⟩ rfl
    exact ⟨g1, g2⟩
  · have hc1 : stepCfg mode ⟨.RECORDING, true, true, chunks, rl, none, pt⟩
        (Ev.tick false (.ok ⟨true, sc, cf⟩) thumb)
        = ⟨.ANALYZING, true, false, chunks, false, some (sc, thumb),
            some (modeInterval mode)⟩ := by
      simp [stepCfg, step, performAnalysisStep]
    have hem : stepEmitted mode ⟨.RECORDING, true, true, chunks, rl, none, pt⟩
        (Ev.tick false (.ok ⟨true, sc, cf⟩) thumb) = [] := by
      simp [stepEmitted, step, performAnalysisStep]
    obtain ⟨g1, g2, g3, g4, g5, g6⟩ := run_ticks_analyzing mode ticks
      ⟨.ANALYZING, true, false, chunks, false, some (sc, thumb),
        some (modeInterval mode)⟩ rfl
    simp only [run, hc1, hem, run_append]
    simp [g1, stepEmitted, step, g3, g4]
  · refine ⟨?_, ?_, ?_, ?_⟩ <;>
      simp [stepCfg, stepEmitted, stepOpened, stepClosed, step,
        performAnalysisStep, startMediaRecorderStep]

/-- C5: on a successful pixel read, the local classifier returns
`isGameOver = hasRibbon && (hasButton || hasUrlBox)` with the row tallies
of the spec (40 % strip-match threshold, the three vertical bands, the
2 %-of-height row thresholds), the score always `none`, and confidence
`1.0` exactly when `isGameOver` holds; in particular a frame with no
blue-ribbon row yields `isGameOver = false`. -/
theorem C5_local_classifier_spec
    (getImageData : Nat → Nat → Nat → Option (Nat → Nat))
    (width height : Nat) (frameData : Nat → Nat)
    (hread : getImageData (width / 2 - scanWidth / 2) scanWidth height
      = some frameData) :
    analyzeGameFrameLocally getImageData width height
      = { isGameOver := isGameOverSpec frameData height, score := none,
          confidence := if isGameOverSpec frameData height then 1 else 0 }
    ∧ (blueRowCount frameData height = 0 →
        (analyzeGameFrameLocally getImageData width height).isGameOver = false) := by
  have hmain : analyzeGameFrameLocally getImageData width height
      = { isGameOver := isGameOverSpec frameData height, score := none,
          confidence := if isGameOverSpec frameData height then 1 else 0 } := by
    simp only [analyzeGameFrameLocally, hread]
    simp [countRows_eq, isGameOverSpec]
  refine ⟨hmain, fun hblue => ?_⟩
  rw [hmain]
  simp [isGameOverSpec, hblue]

set_option maxRecDepth 100000 in
/-- Witness for C5 at the sampled 640×360 frame of constant zero pixels. -/
theorem C5_local_classifier_spec_witness :
    ((fun _ _ _ => some (fun _ => 0)) : Nat → Nat → Nat → Option (Nat → Nat))
        (640 / 2 - scanWidth / 2) scanWidth 360 = some (fun _ => 0)
    ∧ analyzeGameFrameLocally (fun _ _ _ => some (fun _ => 0)) 640 360
        = { isGameOver := false, score := none, confidence := 0 } := by
  refine ⟨rfl, ?_⟩
  rw [(C5_local_classifier_spec (fun _ _ _ => some (fun _ => 0)) 640 360
    (fun _ => 0) rfl).1]
  decide

/-- C6: a classification failure never changes the session state, opens
or closes no buffer and emits nothing; when the failure message carries a
quota signal and the mode is remote, the rate-limited flag is raised and
the next tick is scheduled the 10000 ms backoff later; any other failure
retries at the normal mode interval. -/
theorem C6_failure_isolation (mode : DetectionMode) (st : RecorderState)
    (sa ro rl : Bool) (chs : List Nat) (pf : Option (Option Int × String))
    (pt : Option Nat) (hidden : Bool) (e thumb : String) :
    (stepCfg mode ⟨st, sa, ro, chs, rl, pf, pt⟩ (.tick hidden (.error e) thumb)).state = st
    ∧ (stepCfg mode ⟨st, sa, ro, chs, rl, pf, pt⟩ (.tick hidden (.error e) thumb)).recOpen = ro
    ∧ (stepCfg mode ⟨st, sa, ro, chs, rl, pf, pt⟩ (.tick hidden (.error e) thumb)).chunks = chs
    ∧ (stepCfg mode ⟨st, sa, ro, chs, rl, pf, pt⟩ (.tick hidden (.error e) thumb)).pendingFinalize = pf
    ∧ stepEmitted mode ⟨st, sa, ro, chs, rl, pf, pt⟩ (.tick hidden (.error e) thumb) = []
    ∧ stepOpened mode ⟨st, sa, ro, chs, rl, pf, pt⟩ (.tick hidden (.error e) thumb) = false
    ∧ stepClosed mode ⟨st, sa, ro, chs, rl, pf, pt⟩ (.tick hidden (.error e) thumb) = false
    ∧ (sa = true → hidden = false → st ≠ .ANALYZING → isQuotaError e = true →
        mode = .GEMINI →
        (stepCfg mode ⟨st, sa, ro, chs, rl, pf, pt⟩
          (.tick hidden (.error e) thumb)).isRateLimited = true
        ∧ (stepCfg mode ⟨st, sa, ro, chs, rl, pf, pt⟩
          (.tick hidden (.error e) thumb)).pendingTimer = some ERROR_BACKOFF_MS
        ∧ ERROR_BACKOFF_MS = 10000)
    ∧ (sa = true → hidden = false → st ≠ .ANALYZING →
        ¬(isQuotaError e = true ∧ mode = .GEMINI) →
        (stepCfg mode ⟨st, sa, ro, chs, rl, pf, pt⟩
          (.tick hidden (.error e) thumb)).pendingTimer
          = some (modeInterval mode)) := by
  by_cases hA : st = RecorderState.ANALYZING
  · cases sa <;> cases hidden <;>
      simp [stepCfg, stepEmitted, stepOpened, stepClosed, step, hA]
  · by_cases hQ : isQuotaError e = true ∧ mode = DetectionMode.GEMINI
    · cases sa <;> cases hidden <;>
        simp [stepCfg, stepEmitted, stepOpened, stepClosed, step, hA, hQ,
          ERROR_BACKOFF_MS]
    · cases sa <;> cases hidden <;>
        simp [stepCfg, stepEmitted, stepOpened, stepClosed, step, hA, hQ] <;>
        exact fun h1 h2 => absurd ⟨h1, h2⟩ hQ

/-- Witness for C6: a quota-flagged remote failure in `Monitoring` raises
the rate-limited flag and backs off by the full constant. -/
theorem C6_failure_isolation_witness :
    (isQuotaError "HTTP 429" = true ∧ RecorderState.MONITORING ≠ .ANALYZING)
    ∧ (stepCfg .GEMINI ⟨.MONITORING, true, false, [], false, none, none⟩
        (.tick false (.error "HTTP 429") "t")).isRateLimited = true
    ∧ (stepCfg .GEMINI ⟨.MONITORING, true, false, [], false, none, none⟩
        (.tick false (.error "HTTP 429") "t")).pendingTimer
      = some ERROR_BACKOFF_MS
    ∧ (stepCfg .GEMINI ⟨.MONITORING, true, false, [], false, none, none⟩
        (.tick false (.error "HTTP 429") "t")).state = .MONITORING := by
  have h := C6_failure_isolation .GEMINI .MONITORING true false false [] none
    none false "HTTP 429" "t"
  have hq := h.2.2.2.2.2.2.2.1 rfl rfl (by decide) (by decide) rfl
  exact ⟨⟨by decide, by decide⟩, hq.1, hq.2.1, h.1⟩

/-- C7: after stop forces the state to `Idle`, a late classification
result matches none of the dispatch branches — no transition, no buffer
opened or closed, no finalize; stop itself empties the stream, cancels
the timer and emits nothing; and `startMediaRecorder` refuses to open a
buffer without an active stream. -/
theorem C7_stale_result_discarded (mode : DetectionMode) (sa ro : Bool)
    (result : AnalysisResult) (c : Ctrl) (st : RecorderState) :
    performAnalysisStep .IDLE sa ro result = ⟨.IDLE, false, false⟩
    ∧ (stepCfg mode c .stop).state = .IDLE
    ∧ (stepCfg mode c .stop).streamActive = false
    ∧ (stepCfg mode c .stop).pendingTimer = none
    ∧ stepEmitted mode c .stop = []
    ∧ stepOpened mode c .stop = false
    ∧ startMediaRecorderStep false ro st = (st, false) := by
  refine ⟨?_, ?_, ?_, ?_, ?_, ?_, ?_⟩ <;>
    simp [performAnalysisStep, startMediaRecorderStep, stepCfg, stepEmitted,
      stepOpened, step]

/-- C8: the claim that every scheduled delay is selected by mode fails at
the first tick — `startCapture` schedules it with the literal 1000 ms in
remote mode too (its adjacent comment says local mode checks faster than
remote, so the literal is a slip for `BASE_INTERVAL_MS`); the loop's own
delays do follow the mode, and the backoff constant is 10000 ms. -/
theorem C8_initial_delay_code_bug :
    startCaptureDelay .GEMINI = 1000
    ∧ startCaptureDelay .LOCAL = 1000
    ∧ BASE_INTERVAL_MS = 4000
    ∧ startCaptureDelay .GEMINI ≠ BASE_INTERVAL_MS
    ∧ modeInterval .GEMINI = 4000
    ∧ modeInterval .LOCAL = 1000
    ∧ ERROR_BACKOFF_MS = 10000 := by
  refine ⟨rfl, rfl, rfl, by decide, rfl, rfl, rfl⟩

/-- C9: when the pixel read fails (the canvas call throws), the local
classifier returns exactly `{isGameOver := false, score := none,
confidence := 0}` — the error is caught, never propagated. -/
theorem C9_pixel_failure_negative
    (getImageData : Nat → Nat → Nat → Option (Nat → Nat))
    (width height : Nat)
    (hfail : getImageData (width / 2 - scanWidth / 2) scanWidth height = none) :
    analyzeGameFrameLocally getImageData width height
      = { isGameOver := false, score := none, confidence := 0 } := by
  simp only [analyzeGameFrameLocally, hfail]

/-- Witness for C9: the always-throwing pixel source at the sampled
640×360 frame. -/
theorem C9_pixel_failure_negative_witness :
    ((fun _ _ _ => none) : Nat → Nat → Nat → Option (Nat → Nat))
        (640 / 2 - scanWidth / 2) scanWidth 360 = none
    ∧ analyzeGameFrameLocally (fun _ _ _ => none) 640 360
        = { isGameOver := false, score := none, confidence := 0 } :=
  ⟨rfl, C9_pixel_failure_negative (fun _ _ _ => none) 640 360 rfl⟩

/-- C10: a tick fired while the document is hidden invokes no classifier
(the step does not depend on the outcome), performs no transition or
buffer operation, and only reschedules at twice the mode interval; a
whole burst of hidden ticks leaves state, buffer and pending finalize
untouched and emits nothing. -/
theorem C10_hidden_tick_reschedule_only (mode : DetectionMode)
    (st : RecorderState) (ro rl : Bool) (chs : List Nat)
    (pf : Option (Option Int × String)) (pt : Option Nat)
    (o₁ o₂ : Except String AnalysisResult) (t₁ t₂ : String)
    (l : List (Except String AnalysisResult × String)) :
    step mode ⟨st, true, ro, chs, rl, pf, pt⟩ (.tick true o₁ t₁)
      = step mode ⟨st, true, ro, chs, rl, pf, pt⟩ (.tick true o₂ t₂)
    ∧ stepCfg mode ⟨st, true, ro, chs, rl, pf, pt⟩ (.tick true o₁ t₁)
      = ⟨st, true, ro, chs, rl, pf, some (2 * modeInterval mode)⟩
    ∧ stepEmitted mode ⟨st, true, ro, chs, rl, pf, pt⟩ (.tick true o₁ t₁) = []
    ∧ stepSampled mode ⟨st, true, ro, chs, rl, pf, pt⟩ (.tick true o₁ t₁) = false
    ∧ stepOpened mode ⟨st, true, ro, chs, rl, pf, pt⟩ (.tick true o₁ t₁) = false
    ∧ stepClosed mode ⟨st, true, ro, chs, rl, pf, pt⟩ (.tick true o₁ t₁) = false
    ∧ (run mode ⟨st, true, ro, chs, rl, pf, pt⟩ (hiddenTicks l)).2 = []
    ∧ (run mode ⟨st, true, ro, chs, rl, pf, pt⟩ (hiddenTicks l)).1.state = st
    ∧ (run mode ⟨st, true, ro, chs, rl, pf, pt⟩ (hiddenTicks l)).1.recOpen = ro
    ∧ (run mode ⟨st, true, ro, chs, rl, pf, pt⟩ (hiddenTicks l)).1.chunks = chs
    ∧ (run mode ⟨st, true, ro, chs, rl, pf, pt⟩ (hiddenTicks l)).1.pendingFinalize = pf := by
  obtain ⟨g1, g2, g3, g4, g5, _⟩ := run_hidden_ticks mode l
    ⟨st, true, ro, chs, rl, pf, pt⟩ rfl
  refine ⟨?_, ?_, ?_, ?_, ?_, ?_, g1, g2, g3, g4, g5⟩ <;>
    simp [step, stepCfg, stepEmitted, stepSampled, stepOpened, stepClosed]

/-- Golden positive frame: two ribbon-blue rows in the top band plus two
button-green rows in the middle band make the classifier fire with
confidence 1 and no score. -/
example :
    analyzeGameFrameLocally
      (fun _ _ _ => some (fun i =>
        if i / 80 < 2 then
          (if i % 4 = 0 then 66 else if i % 4 = 1 then 133
            else if i % 4 = 2 then 244 else 255)
        else
          (if i % 4 = 0 then 52 else if i % 4 = 1 then 168
            else if i % 4 = 2 then 83 else 255)))
      20 5
      = { isGameOver := true, score := none, confidence := 1 } := by
  decide

end DoodleHoops
